import Mathlib

/-!
Verification development for the giftless core: the hierarchical
authorization model (`giftless/auth/identity.py`) and the basic streaming
transfer adapter (`giftless/transfer/basic_streaming.py`).

Python dictionaries are embedded as association lists (first binding wins,
updates replace the first binding in place or append a fresh one at the
end, exactly like CPython's insertion-ordered `dict`).  `defaultdict`
auto-vivification is modelled explicitly: a `[]`-access on a missing key
inserts the default value, so the corresponding Lean functions return the
updated map alongside the result wherever the Python code can vivify.
-/

set_option autoImplicit false

namespace Giftless

/-- System wide permissions (`giftless.auth.identity.Permission`). -/
inductive Permission where
  | READ
  | READ_META
  | WRITE
deriving DecidableEq, Repr

/-- `Permission.all()` returns the set of every permission. -/
def Permission.all : List Permission := [.READ, .READ_META, .WRITE]

/-- A Python `set[Permission]`, modelled by membership in a list. -/
abbrev PermSet := List Permission

/-- `set.update`: union the elements of `b` into `a` (duplicates dropped). -/
def PermSet.union (a b : PermSet) : PermSet :=
  a ++ b.filter (fun p => !a.contains p)

/-- First-match lookup in an association list; `none` when the key is absent.
Models Python `d[k]` (on a present key) and `k in d`. -/
def alookup {κ α : Type} [DecidableEq κ] : List (κ × α) → κ → Option α
  | [], _ => none
  | (k, v) :: rest, key => if k = key then some v else alookup rest key

/-- Replace the first binding of `key`, or append a new binding at the end.
Models Python `d[k] = v` on an insertion-ordered `dict`. -/
def aset {κ α : Type} [DecidableEq κ] : List (κ × α) → κ → α → List (κ × α)
  | [], key, value => [(key, value)]
  | (k, v) :: rest, key, value =>
      if k = key then (k, value) :: rest else (k, v) :: aset rest key value

/-- Innermost level of the `PermissionTree`: object id (or wildcard `None`)
to granted permission set. -/
abbrev OidMap := List (Option String × PermSet)

/-- Middle level: repository (or wildcard `None`) to `OidMap`. -/
abbrev RepoMap := List (Option String × OidMap)

/-- `PermissionTree = dict[Optional[str], dict[Optional[str],
dict[Optional[str], set[Permission]]]]`, three nested levels keyed by
(organization, repository, oid), each key possibly the wildcard `None`. -/
abbrev PermissionTree := List (Option String × RepoMap)

/-- Registered stepping stone so that equality of whole trees stays
decidable (the default synthesis gives out on the triple nesting). -/
instance instDecEqRepoMap : DecidableEq RepoMap := inferInstance

/-- Decidable equality of permission trees. -/
instance instDecEqPermissionTree : DecidableEq PermissionTree := inferInstance

/-- `DefaultIdentity.allow`.  With `permissions = None` the Python code
assigns a fresh empty set at the coordinate
(`self._allowed[organization][repo][oid] = set()`), replacing whatever was
there; otherwise it unions `permissions` into the existing set
(`.update`), where the nested `defaultdict` vivifies missing intermediate
levels with empty maps and a missing leaf with an empty set. -/
def allow (t : PermissionTree) (organization repo : Option String)
    (permissions : Option PermSet) (oid : Option String) : PermissionTree :=
  let repos := (alookup t organization).getD []
  let oids := (alookup repos repo).getD []
  match permissions with
  | none => aset t organization (aset repos repo (aset oids oid []))
  | some ps =>
      let cur := (alookup oids oid).getD []
      aset t organization (aset repos repo (aset oids oid (PermSet.union cur ps)))

/-- `DefaultIdentity.is_authorized`.  Returns the boolean answer together
with the tree after the call: the Python tree is a nested `defaultdict`,
so the two fallback reads that are not guarded by a membership test —
`self._allowed[organization][None][None]` in the wildcard-repository
branch and `self._allowed[None][None][oid]` in the global-wildcard branch
— vivify an empty set under the missing key before testing membership. -/
def is_authorized (t : PermissionTree) (organization repo : String)
    (permission : Permission) (oid : Option String) : Bool × PermissionTree :=
  match alookup t (some organization) with
  | some repos =>
    match alookup repos (some repo) with
    | some oids =>
      match alookup oids oid with
      | some grants => (grants.contains permission, t)
      | none =>
        match alookup oids none with
        | some grants => (grants.contains permission, t)
        | none => (false, t)
    | none =>
      match alookup repos none with
      | some oids =>
        match alookup oids none with
        | some grants => (grants.contains permission, t)
        | none =>
          (false, aset t (some organization) (aset repos none (oids ++ [(none, [])])))
      | none => (false, t)
  | none =>
    match alookup t none with
    | some repos =>
      match alookup repos none with
      | some oids =>
        match alookup oids oid with
        | some grants => (grants.contains permission, t)
        | none => (false, aset t none (aset repos none (oids ++ [(oid, [])])))
      | none => (false, t)
    | none => (false, t)

/-- The grant set recorded at an exact (organization, repository, oid)
coordinate of the tree, `none` when no entry exists there. -/
def coordSet (t : PermissionTree) (org repo oid : Option String) :
    Option PermSet :=
  match alookup t org with
  | none => none
  | some repos =>
    match alookup repos repo with
    | none => none
    | some oids => alookup oids oid

/-- Membership of a permission in an optional grant set; an absent set
grants nothing. -/
def memOpt (s : Option PermSet) (p : Permission) : Bool :=
  match s with
  | some grants => grants.contains p
  | none => false

/-- Whether permission `p` is granted at the exact coordinate
(org, repo, oid) of the tree. -/
def treeMem (t : PermissionTree) (org repo oid : Option String)
    (p : Permission) : Bool :=
  memOpt (coordSet t org repo oid) p

/-- The three-step specificity algorithm exactly as worded in §4.1 of the
spec: (1) organization unknown — answer from
`tree[wildcard][wildcard][requested oid]` when both wildcard entries
exist, else false; (2) organization known, repository unknown — answer
from `tree[organization][wildcard][wildcard]` when the
wildcard-repository entry exists, else false; (3) both known — exact oid
coordinate if present, else the wildcard-oid coordinate if present, else
false.  Written from the spec text, to be compared with `is_authorized`
above, which is the translation of the code. -/
def is_authorized_spec (t : PermissionTree) (organization repo : String)
    (permission : Permission) (oid : Option String) : Bool :=
  match alookup t (some organization) with
  | none =>
    match alookup t none with
    | some repos =>
      match alookup repos none with
      | some oids => memOpt (alookup oids oid) permission
      | none => false
    | none => false
  | some repos =>
    match alookup repos (some repo) with
    | none =>
      match alookup repos none with
      | some oids => memOpt (alookup oids none) permission
      | none => false
    | some oids =>
      match alookup oids oid with
      | some grants => grants.contains permission
      | none =>
        match alookup oids none with
        | some grants => grants.contains permission
        | none => false

/-- One call against a `DefaultIdentity`: either `allow` (all arguments
optional, as in the Python signature) or `is_authorized`. -/
inductive Call where
  | allowC (organization repo : Option String) (permissions : Option PermSet)
      (oid : Option String)
  | authC (organization repo : String) (permission : Permission)
      (oid : Option String)
deriving Repr

/-- Effect of one call on the identity's grant tree. -/
def Call.step (t : PermissionTree) : Call → PermissionTree
  | .allowC org repo perms oid => allow t org repo perms oid
  | .authC org repo p oid => (is_authorized t org repo p oid).snd

/-- Tree after a sequence of calls. -/
def runCalls (t : PermissionTree) : List Call → PermissionTree
  | [] => t
  | c :: cs => runCalls (Call.step t c) cs

/-- A call either supplies a permissions set to `allow` (possibly empty),
or is a lookup; i.e. it is not an `allow` with `permissions` omitted. -/
def Call.permsGiven : Call → Bool
  | .allowC _ _ perms _ => perms.isSome
  | .authC _ _ _ _ => true

/-! ## Transfer adapter (`giftless/transfer/basic_streaming.py`) -/

/-- `posixpath.join(a, b)` for the two-argument case: an absolute `b`
replaces `a`; otherwise the parts are joined, inserting a slash unless
`a` is empty or already ends in one.  (Written over the character list
of the strings so that concrete instances evaluate by `decide`.) -/
def posixpathJoin (a b : String) : String :=
  if b.data.head? = some '/' then b
  else if a = "" ∨ a.data.getLast? = some '/' then a ++ b
  else a ++ "/" ++ b

/-- Storage-domain errors (`giftless.storage.exc`).
Modelled from the spec: the exception classes live outside the two core
source files; §6 gives `getSize` "fails with ObjectNotFound if absent" and
§7 the taxonomy (NotFound / InvalidObject / StorageError), every member
convertible to a structured serializable form. -/
inductive StorageErr where
  | objectNotFound
  | invalidObject (message : String)
deriving DecidableEq, Repr

/-- The structured `{code, message}` form of an error (§6 wire shape). -/
structure ErrorDict where
  code : Nat
  message : String
deriving DecidableEq, Repr

/-- `StorageError.as_dict`.  Modelled from the spec: "always convertible
to a structured serializable form" (§7) with the `{code, message}` shape
of §6; NotFound carries the protocol's not-found code. -/
def StorageErr.as_dict : StorageErr → ErrorDict
  | .objectNotFound => ⟨404, "The object was not found"⟩
  | .invalidObject message => ⟨422, message⟩

/-- Storage backend state: which (prefix, oid) pairs exist and their
stored sizes.  The backends themselves are external collaborators (§1);
this is the §6 interface contract. -/
abbrev Storage := List ((String × String) × Nat)

/-- Stored size of an object, `none` when absent. -/
def storedSize (s : Storage) (pfx oid : String) : Option Nat :=
  alookup s (pfx, oid)

/-- `storage.exists(prefix, oid) -> bool` (§6). -/
def storageExists (s : Storage) (pfx oid : String) : Bool :=
  (storedSize s pfx oid).isSome

/-- `storage.get_size(prefix, oid) -> int`, failing with `ObjectNotFound`
if the object is absent (§6; also the NOTE on `_check_object`). -/
def getSize (s : Storage) (pfx oid : String) : Except StorageErr Nat :=
  match storedSize s pfx oid with
  | some n => Except.ok n
  | none => Except.error .objectNotFound

/-- `storage.verify_object(prefix, oid, size) -> bool`.
Modelled from the spec: §4.2 verify "confirms the object exists in
storage and its size matches the claimed size". -/
def verifyObject (s : Storage) (pfx oid : String) (size : Nat) : Bool :=
  storedSize s pfx oid = some size

/-- `{href, header, expires_in}` (§3 / §6). -/
structure ActionDescriptor where
  href : String
  header : List (String × String)
  expires_in : Nat
deriving DecidableEq, Repr

/-- The `actions` mapping of a transfer response: action name to
descriptor.  `download` descriptors come ready-made from the storage
collaborator as a raw dict, so they keep the dict representation on which
the code's truthiness test operates. -/
structure Actions where
  upload : Option ActionDescriptor
  verify : Option ActionDescriptor
  download : Option (List (String × String))
deriving DecidableEq, Repr

/-- Python truthiness of `response.get('actions', {}).get('download')`:
a missing key and an empty dict are both falsy. -/
def downloadTruthy (a : Actions) : Bool :=
  match a.download with
  | none => false
  | some d => !d.isEmpty

/-- One per-object transfer response (§3 TransferResponse): `oid` and
`size` always present, `actions` / `authenticated` / `error` only when
the corresponding dict key was set. -/
structure TransferResponse where
  oid : String
  size : Nat
  actions : Option Actions
  authenticated : Option Bool
  error : Option ErrorDict
deriving DecidableEq, Repr

/-- `BasicStreamingTransferAdapter` together with its injected external
collaborators.  `preauth` models `_preauth_headers(org, repo, actions,
oid, lifetime?)` of `PreAuthorizingTransferAdapter`; `verify_lifetime`
models its fixed `VERIFY_LIFETIME` class attribute; `storage_url` and
`verify_url` model the flask `url_for`-based
`ObjectsView.get_storage_url(operation, org, repo, oid)` and
`VerifyView.get_verify_url(org, repo, oid)`; `get_download_action`
models the storage collaborator's
`get_download_action(prefix, oid, size, lifetime, extra)`.
Modelled from the spec: the collaborator returns a ready-made response
fragment carrying the download descriptor under `actions.download`
(§4.2); the code merges it with `response.update(...)` and then reads
`response.get('actions', {}).get('download')`, so the fragment is the
`actions` mapping itself. -/
structure Adapter where
  storage : Storage
  action_lifetime : Nat
  verify_lifetime : Nat
  preauth : String → String → List String → String → Option Nat →
    List (String × String)
  storage_url : String → String → String → Option String → String
  verify_url : String → String → Option String → String
  get_download_action : String → String → Nat → Nat →
    Option (List (String × String)) → Actions

/-- `BasicStreamingTransferAdapter.upload`.  The Python condition
`not exists(...) or get_size(...) != size` short-circuits, so `get_size`
(which can fail with `ObjectNotFound`) only runs after `exists` returned
true; the `Except` layer records whether a storage error escapes. -/
def upload (a : Adapter) (organization repo oid : String) (size : Nat) :
    Except StorageErr TransferResponse :=
  let pfx := posixpathJoin organization repo
  let needsTransfer : Except StorageErr Bool :=
    if storageExists a.storage pfx oid then
      match getSize a.storage pfx oid with
      | Except.error e => Except.error e
      | Except.ok n => Except.ok (n != size)
    else Except.ok true
  let uploadAction : ActionDescriptor :=
    { href := a.storage_url "put" organization repo (some oid),
      header := a.preauth organization repo ["write"] oid none,
      expires_in := a.action_lifetime }
  let verifyAction : ActionDescriptor :=
    { href := a.verify_url organization repo none,
      header := a.preauth organization repo ["verify"] oid (some a.verify_lifetime),
      expires_in := a.verify_lifetime }
  match needsTransfer with
  | Except.error e => Except.error e
  | Except.ok true =>
      Except.ok
        { oid := oid, size := size,
          actions := some { upload := some uploadAction,
                            verify := some verifyAction, download := none },
          authenticated := some true, error := none }
  | Except.ok false =>
      Except.ok
        { oid := oid, size := size,
          actions := none, authenticated := none, error := none }

/-- `BasicStreamingTransferAdapter._check_object`: raise `InvalidObject`
on a size mismatch, and let the `ObjectNotFound` from `get_size`
propagate when the object is absent (per the NOTE in the source). -/
def check_object (s : Storage) (pfx oid : String) (size : Nat) :
    Except StorageErr Unit :=
  match getSize s pfx oid with
  | Except.error e => Except.error e
  | Except.ok n =>
      if n != size then
        Except.error (.invalidObject "Object size does not match")
      else Except.ok ()

/-- `BasicStreamingTransferAdapter.download`: try
`_check_object` then merge the collaborator's download fragment; a caught
`StorageError` becomes `response['error'] = e.as_dict()`; afterwards
`authenticated` is set exactly when
`response.get('actions', {}).get('download')` is truthy. -/
def download (a : Adapter) (organization repo oid : String) (size : Nat)
    (extra : Option (List (String × String))) : TransferResponse :=
  let pfx := posixpathJoin organization repo
  let base : TransferResponse :=
    { oid := oid, size := size,
      actions := none, authenticated := none, error := none }
  let r :=
    match check_object a.storage pfx oid size with
    | Except.error e => { base with error := some e.as_dict }
    | Except.ok _ =>
        let frag := a.get_download_action pfx oid size a.action_lifetime extra
        { base with actions := some frag }
  match r.actions with
  | some acts =>
      if downloadTruthy acts then { r with authenticated := some true } else r
  | none => r

/-- The payload-validation failure raised by the verify view
(`giftless.exc.InvalidPayload`). -/
inductive VerifyErr where
  | invalidPayload (message : String)
deriving DecidableEq, Repr

/-- A bare HTTP response as returned by the verify view. -/
structure HttpResponse where
  status : Nat
deriving DecidableEq, Repr

/-- `VerifyView.verify` after payload parsing and the caller-side
authorization check (both external collaborators, §2): raise
`InvalidPayload` when `storage.verify_object(prefix, oid, size)` is
false, otherwise return an empty 200 response. -/
def VerifyView.verify (s : Storage) (organization repo : String)
    (payload_oid : String) (payload_size : Nat) :
    Except VerifyErr HttpResponse :=
  let pfx := posixpathJoin organization repo
  if verifyObject s pfx payload_oid payload_size then
    Except.ok { status := 200 }
  else
    Except.error (.invalidPayload "Object does not exist or size does not match")

/-- A concrete adapter over a one-object storage backend (object `x`
with stored size 5 under prefix `o/r`), used to evaluate the theorems
on explicit inputs. -/
def sampleAdapter : Adapter :=
  { storage := [(("o/r", "x"), 5)],
    action_lifetime := 900,
    verify_lifetime := 60,
    preauth := fun _ _ acts _ _ => [("Authorization", String.intercalate "," acts)],
    storage_url := fun _ _ _ _ => "storage-url",
    verify_url := fun _ _ _ => "verify-url",
    get_download_action := fun _ _ _ _ _ =>
      { upload := none, verify := none,
        download := some [("href", "download-url")] } }

/-! ## Helper lemmas about the association-list embedding -/

theorem alookup_aset {κ α : Type} [DecidableEq κ] (m : List (κ × α)) (k : κ)
    (v : α) (k2 : κ) :
    alookup (aset m k v) k2 = if k = k2 then some v else alookup m k2 := by
  induction m with
  | nil => simp [aset, alookup]
  | cons hd tl ih =>
    obtain ⟨hk, hv⟩ := hd
    by_cases h : hk = k
    · subst h
      simp only [aset, if_pos rfl, alookup]
      by_cases h2 : hk = k2 <;> simp [h2]
    · simp only [aset, if_neg h, alookup]
      by_cases h2 : hk = k2
      · subst h2
        have : ¬ k = hk := fun e => h e.symm
        simp [this]
      · simp [h2, ih]

theorem alookup_append {κ α : Type} [DecidableEq κ] (m l : List (κ × α))
    (k : κ) :
    alookup (m ++ l) k =
      (match alookup m k with
       | some v => some v
       | none => alookup l k) := by
  induction m with
  | nil => simp [alookup]
  | cons hd tl ih =>
    obtain ⟨hk, hv⟩ := hd
    by_cases h : hk = k <;> simp [alookup, h, ih]

theorem contains_union (a b : PermSet) (p : Permission) :
    (PermSet.union a b).contains p = (a.contains p || b.contains p) := by
  simp [PermSet.union, List.elem_eq_mem, List.mem_filter]
  by_cases h : p ∈ a <;> simp [h]

/-- Vivifying an empty grant set under a missing key (and writing the
two enclosing levels back) changes no granted permission at any
coordinate. -/
theorem treeMem_aset_viv (t : PermissionTree) (ko kr ki : Option String)
    (repos : RepoMap) (oids : OidMap)
    (h1 : alookup t ko = some repos) (h2 : alookup repos kr = some oids)
    (o r i : Option String) (q : Permission) :
    treeMem (aset t ko (aset repos kr (oids ++ [(ki, [])]))) o r i q =
      treeMem t o r i q := by
  by_cases ho : ko = o
  case neg => simp [treeMem, coordSet, alookup_aset, ho]
  subst ho
  by_cases hr : kr = r
  case neg => simp [treeMem, coordSet, alookup_aset, h1, hr]
  subst hr
  cases hi : alookup oids i with
  | some s =>
      simp [treeMem, coordSet, alookup_aset, alookup_append, h1, h2, hi]
  | none =>
      by_cases hki : ki = i
      · subst hki
        simp [treeMem, coordSet, alookup_aset, alookup_append, h1, h2, hi,
          alookup, memOpt]
      · simp [treeMem, coordSet, alookup_aset, alookup_append, h1, h2, hi,
          alookup, hki, memOpt]

/-- Shared content of claims about the purity of `is_authorized`: the
evaluation never changes which permissions are granted at any
coordinate (the vivified fallback entries are empty). -/
theorem treeMem_auth_snd (t : PermissionTree) (organization repo : String)
    (permission : Permission) (oid : Option String) (o r i : Option String)
    (q : Permission) :
    treeMem ((is_authorized t organization repo permission oid).snd) o r i q =
      treeMem t o r i q := by
  unfold is_authorized
  repeat' split
  all_goals first
    | rfl
    | (apply treeMem_aset_viv <;> assumption)

/-- Shared content of C1: the code's lookup agrees with the spec's
three-step specificity algorithm on the boolean answer. -/
theorem is_authorized_fst_spec (t : PermissionTree) (organization repo : String)
    (permission : Permission) (oid : Option String) :
    (is_authorized t organization repo permission oid).fst =
      is_authorized_spec t organization repo permission oid := by
  unfold is_authorized is_authorized_spec
  repeat' split
  all_goals first
    | rfl
    | simp_all [memOpt]

/-- `allow` written as one three-level `aset`, uniformly over the two
branches of the `permissions` match. -/
theorem allow_eq_aset (t : PermissionTree) (org repo : Option String)
    (perms : Option PermSet) (oid : Option String) :
    allow t org repo perms oid =
      aset t org (aset ((alookup t org).getD []) repo
        (aset ((alookup ((alookup t org).getD []) repo).getD []) oid
          (match perms with
           | none => []
           | some ps =>
               PermSet.union
                 ((alookup ((alookup ((alookup t org).getD []) repo).getD [])
                     oid).getD []) ps))) := by
  cases perms <;> rfl

/-- Writing a grant set through the three vivified levels changes the
grant set at the targeted coordinate and no other. -/
theorem coordSet_aset3 (t : PermissionTree) (org repo oid : Option String)
    (w : PermSet) (o r i : Option String) :
    coordSet (aset t org (aset ((alookup t org).getD []) repo
        (aset ((alookup ((alookup t org).getD []) repo).getD []) oid w)))
        o r i =
      if org = o ∧ repo = r ∧ oid = i then some w else coordSet t o r i := by
  by_cases ho : org = o
  case neg => simp [coordSet, alookup_aset, ho]
  subst ho
  by_cases hr : repo = r
  case neg =>
    cases h1 : alookup t org with
    | none => simp [coordSet, alookup_aset, h1, hr, alookup]
    | some repos => simp [coordSet, alookup_aset, h1, hr]
  subst hr
  by_cases hi : oid = i
  case neg =>
    cases h1 : alookup t org with
    | none => simp [coordSet, alookup_aset, h1, hi, alookup]
    | some repos =>
      cases h2 : alookup repos repo with
      | none => simp [coordSet, alookup_aset, h1, h2, hi, alookup]
      | some oids => simp [coordSet, alookup_aset, h1, h2, hi]
  subst hi
  simp [coordSet, alookup_aset]

/-- The lookup of the current grant set made by `allow` agrees with
`coordSet` (defaulting to the empty set). -/
theorem allow_cur_eq (t : PermissionTree) (org repo oid : Option String) :
    ((alookup ((alookup ((alookup t org).getD []) repo).getD []) oid).getD []
      : PermSet) = (coordSet t org repo oid).getD [] := by
  simp only [coordSet]
  cases h1 : alookup t org with
  | none => simp [alookup]
  | some repos =>
    cases h2 : alookup repos repo with
    | none => simp [h2, alookup]
    | some oids => simp [h2]

/-- Effect of `allow` on the grant set found at any exact coordinate:
the targeted coordinate gets the fresh empty set (permissions omitted)
or the union of the old set with the supplied one; every other
coordinate is untouched. -/
theorem coordSet_allow (t : PermissionTree) (org repo : Option String)
    (perms : Option PermSet) (oid : Option String) (o r i : Option String) :
    coordSet (allow t org repo perms oid) o r i =
      if org = o ∧ repo = r ∧ oid = i then
        some (match perms with
          | none => []
          | some ps => PermSet.union ((coordSet t org repo oid).getD []) ps)
      else coordSet t o r i := by
  rw [allow_eq_aset, coordSet_aset3, allow_cur_eq]

/-- When the exact coordinate exists, the specificity algorithm answers
from its grant set. -/
theorem spec_of_coordSet_some (t : PermissionTree) (org repo : String)
    (oid : Option String) (s : PermSet) (p : Permission)
    (h : coordSet t (some org) (some repo) oid = some s) :
    is_authorized_spec t org repo p oid = s.contains p := by
  cases e1 : alookup t (some org) with
  | none => simp [coordSet, e1] at h
  | some repos =>
    cases e2 : alookup repos (some repo) with
    | none => simp [coordSet, e1, e2] at h
    | some oids =>
      have hx : alookup oids oid = some s := by
        simpa [coordSet, e1, e2] using h
      simp [is_authorized_spec, e1, e2, hx]

/-- When the exact coordinate is absent but the wildcard-oid coordinate
under the same organization and repository exists, the specificity
algorithm answers from the wildcard grant set. -/
theorem spec_wildcard_fallback (t : PermissionTree) (org repo : String)
    (oid : Option String) (s : PermSet) (p : Permission)
    (h1 : coordSet t (some org) (some repo) oid = none)
    (h2 : coordSet t (some org) (some repo) none = some s) :
    is_authorized_spec t org repo p oid = s.contains p := by
  cases e1 : alookup t (some org) with
  | none => simp [coordSet, e1] at h2
  | some repos =>
    cases e2 : alookup repos (some repo) with
    | none => simp [coordSet, e1, e2] at h2
    | some oids =>
      have hx : alookup oids oid = none := by
        simpa [coordSet, e1, e2] using h1
      have hn : alookup oids none = some s := by
        simpa [coordSet, e1, e2] using h2
      simp [is_authorized_spec, e1, e2, hx, hn]

/-- `allow` with a supplied permission set never removes a granted
permission from any coordinate. -/
theorem treeMem_allow_some_mono (t : PermissionTree) (org repo : Option String)
    (ps : PermSet) (oid : Option String) (o r i : Option String)
    (q : Permission) (h : treeMem t o r i q = true) :
    treeMem (allow t org repo (some ps) oid) o r i q = true := by
  simp only [treeMem] at h ⊢
  rw [coordSet_allow]
  by_cases hc : org = o ∧ repo = r ∧ oid = i
  · obtain ⟨e1, e2, e3⟩ := hc
    subst e1; subst e2; subst e3
    simp only [and_self, if_true]
    cases hcs : coordSet t org repo oid with
    | none => rw [hcs] at h; simp [memOpt] at h
    | some s =>
      rw [hcs] at h
      simp only [memOpt] at h
      simp only [memOpt, Option.getD_some, contains_union]
      simp only [Bool.or_eq_true, List.elem_eq_mem, decide_eq_true_eq]
      exact Or.inl (by simpa [List.elem_eq_mem] using h)
  · rw [if_neg hc]
    exact h

/-- A single call that is not an `allow` with omitted permissions never
removes a granted permission. -/
theorem treeMem_step_mono (t : PermissionTree) (c : Call)
    (o r i : Option String) (q : Permission)
    (hc : Call.permsGiven c = true) (h : treeMem t o r i q = true) :
    treeMem (Call.step t c) o r i q = true := by
  cases c with
  | allowC org repo perms oid =>
    cases perms with
    | none => simp [Call.permsGiven] at hc
    | some ps => exact treeMem_allow_some_mono t org repo ps oid o r i q h
  | authC org repo p oid =>
    show treeMem ((is_authorized t org repo p oid).snd) o r i q = true
    rw [treeMem_auth_snd]
    exact h

/-- Monotonicity over whole call sequences without omitted-permission
`allow` calls. -/
theorem treeMem_runCalls_mono (calls : List Call) (t : PermissionTree)
    (o r i : Option String) (q : Permission)
    (hall : ∀ c ∈ calls, Call.permsGiven c = true)
    (h : treeMem t o r i q = true) :
    treeMem (runCalls t calls) o r i q = true := by
  induction calls generalizing t with
  | nil => simpa [runCalls] using h
  | cons c cs ih =>
    rw [runCalls]
    exact ih (Call.step t c)
      (fun d hd => hall d (List.mem_cons_of_mem _ hd))
      (treeMem_step_mono t c o r i q (hall c (List.mem_cons_self _ _)) h)

/-! ## Helper lemmas about the transfer adapter -/

/-- Closed form of `upload`: a response with the `upload` and `verify`
actions and `authenticated = true` when the object is absent or its
stored size differs, and a bare `{oid, size}` response otherwise; never
a storage error. -/
theorem upload_unfold (a : Adapter) (organization repo oid : String)
    (size : Nat) :
    upload a organization repo oid size =
      Except.ok
        (if storedSize a.storage (posixpathJoin organization repo) oid
            = some size then
          { oid := oid, size := size,
            actions := none, authenticated := none, error := none }
        else
          { oid := oid, size := size,
            actions := some
              { upload := some
                  { href := a.storage_url "put" organization repo (some oid),
                    header := a.preauth organization repo ["write"] oid none,
                    expires_in := a.action_lifetime },
                verify := some
                  { href := a.verify_url organization repo none,
                    header := a.preauth organization repo ["verify"] oid
                      (some a.verify_lifetime),
                    expires_in := a.verify_lifetime },
                download := none },
            authenticated := some true, error := none }) := by
  unfold upload storageExists getSize
  cases h : storedSize a.storage (posixpathJoin organization repo) oid with
  | none => simp [h]
  | some n =>
    by_cases hs : n = size
    · subst hs; simp [h]
    · have hb : (n != size) = true := by simpa using hs
      simp [h, hs, hb]

/-- Closed form of `download`: object absent or size mismatch turns the
storage error into the in-band `error` field; otherwise the
collaborator's fragment is merged and `authenticated` tracks the
truthiness of its download descriptor. -/
theorem download_unfold (a : Adapter) (organization repo oid : String)
    (size : Nat) (extra : Option (List (String × String))) :
    download a organization repo oid size extra =
      (match storedSize a.storage (posixpathJoin organization repo) oid with
       | none =>
          { oid := oid, size := size, actions := none, authenticated := none,
            error := some StorageErr.objectNotFound.as_dict }
       | some n =>
          if n = size then
            if downloadTruthy (a.get_download_action
                (posixpathJoin organization repo) oid size a.action_lifetime
                extra) then
              { oid := oid, size := size,
                actions := some (a.get_download_action
                  (posixpathJoin organization repo) oid size a.action_lifetime
                  extra),
                authenticated := some true, error := none }
            else
              { oid := oid, size := size,
                actions := some (a.get_download_action
                  (posixpathJoin organization repo) oid size a.action_lifetime
                  extra),
                authenticated := none, error := none }
          else
            { oid := oid, size := size, actions := none, authenticated := none,
              error := some
                ((StorageErr.invalidObject "Object size does not match").as_dict) }) := by
  unfold download check_object getSize
  cases h : storedSize a.storage (posixpathJoin organization repo) oid with
  | none => simp [h]
  | some n =>
    by_cases hs : n = size
    · subst hs
      simp [h]
    · have hb : (n != size) = true := by simpa using hs
      simp [h, hs, hb]

/-! ## Claims -/

/-- C1: for every grant tree, requested organization, repo, permission
and optional oid, `is_authorized` returns exactly what the three-step
specificity algorithm of §4.1 prescribes: organization unknown — answer
from the global wildcard pair keyed by the literal requested oid, else
false; organization known, repository unknown — answer from the
wildcard-repository entry at the wildcard oid, else false; both known —
exact oid coordinate, else wildcard-oid coordinate, else false. -/
theorem is_authorized_follows_specificity (t : PermissionTree)
    (organization repo : String) (permission : Permission)
    (oid : Option String) :
    (is_authorized t organization repo permission oid).fst =
      is_authorized_spec t organization repo permission oid :=
  is_authorized_fst_spec t organization repo permission oid

/-- C2 counterexample: evaluating `is_authorized` in the
wildcard-repository fallback branch changes the tree — the `defaultdict`
read `self._allowed[organization][None][None]` vivifies an empty entry
under the wildcard-oid key, so the tree after the call differs from the
tree before it, refuting the claim that no entry is created by
evaluation. -/
theorem is_authorized_mutates_tree_cex :
    (is_authorized [(some "a", [(none, [(some "x", [Permission.READ])])])]
        "a" "b" Permission.READ none).snd ≠
      [(some "a", [(none, [(some "x", [Permission.READ])])])] := by
  decide

/-- C2 amended: `is_authorized` never adds, removes or changes any
granted permission — membership of every permission at every coordinate
of the grant tree is identical before and after the call in every
branch — although the two `defaultdict` fallback branches may create a
new empty entry, so the tree is not always structurally identical. -/
theorem is_authorized_preserves_grant_sets (t : PermissionTree)
    (organization repo : String) (permission : Permission)
    (oid : Option String) (o r i : Option String) (q : Permission) :
    treeMem ((is_authorized t organization repo permission oid).snd) o r i q =
      treeMem t o r i q :=
  treeMem_auth_snd t organization repo permission oid o r i q

/-- C3 counterexample: an `allow` call with `permissions` omitted resets
the grant set at its coordinate to the empty set
(`self._allowed[organization][repo][oid] = set()`), removing the READ
permission granted by the preceding call — grant sets do not only grow
under such sequences. -/
theorem allow_omitted_revokes_cex :
    treeMem (runCalls []
        [Call.allowC (some "o") (some "r") (some [Permission.READ]) (some "x")])
        (some "o") (some "r") (some "x") Permission.READ = true ∧
    treeMem (runCalls []
        [Call.allowC (some "o") (some "r") (some [Permission.READ]) (some "x"),
         Call.allowC (some "o") (some "r") none (some "x")])
        (some "o") (some "r") (some "x") Permission.READ = false := by
  constructor <;> decide

/-- C3 amended: grant sets only grow across every sequence of
`is_authorized` calls and `allow` calls whose `permissions` argument is
supplied (even as an empty set); an `allow` with `permissions` omitted
is excluded because it resets the coordinate's grant set to empty and
can remove previously granted permissions. -/
theorem grant_sets_monotone (calls : List Call) (t : PermissionTree)
    (o r i : Option String) (q : Permission)
    (hall : ∀ c ∈ calls, Call.permsGiven c = true)
    (h : treeMem t o r i q = true) :
    treeMem (runCalls t calls) o r i q = true :=
  treeMem_runCalls_mono calls t o r i q hall h

/-- C3 witness: a READ grant survives a later WRITE grant and a lookup. -/
theorem grant_sets_monotone_witness :
    treeMem (runCalls
        [(some "o", [(some "r", [(some "x", [Permission.READ])])])]
        [Call.allowC (some "o") (some "r") (some [Permission.WRITE]) (some "x"),
         Call.authC "o" "r" Permission.READ (some "x")])
        (some "o") (some "r") (some "x") Permission.READ = true := by
  apply grant_sets_monotone
  · decide
  · decide

/-- C7: starting from an identity with no grant at the exact coordinate
(org, repo, oid), after `allow(org, repo, perms, oid)` with non-empty
`perms`, `is_authorized(org, repo, p, oid)` answers membership of `p`
in `perms` — true for every permission in `perms`, false for every
other permission. -/
theorem allow_then_authorized (t : PermissionTree) (org repo : String)
    (ps : PermSet) (oid : Option String) (p : Permission)
    (_hne : ps ≠ [])
    (h : coordSet t (some org) (some repo) oid = none) :
    (is_authorized (allow t (some org) (some repo) (some ps) oid)
        org repo p oid).fst = ps.contains p := by
  rw [is_authorized_fst_spec]
  have hc : coordSet (allow t (some org) (some repo) (some ps) oid)
      (some org) (some repo) oid
        = some (PermSet.union ((coordSet t (some org) (some repo) oid).getD [])
            ps) := by
    rw [coordSet_allow]
    simp
  rw [h] at hc
  rw [spec_of_coordSet_some _ _ _ _ _ p hc, contains_union]
  simp [alookup]

/-- C7 witness: granting WRITE on a fresh coordinate makes WRITE
authorized there. -/
theorem allow_then_authorized_witness :
    (is_authorized
        (allow [] (some "o") (some "r") (some [Permission.WRITE]) (some "x"))
        "o" "r" Permission.WRITE (some "x")).fst =
      [Permission.WRITE].contains Permission.WRITE :=
  allow_then_authorized [] "o" "r" [Permission.WRITE] (some "x")
    Permission.WRITE (by decide) (by decide)

/-- C8: after `allow(org, repo, oid = X, permissions = empty)`, oid `X`
is a known-but-empty coordinate: every permission is refused at `X`
even when a wildcard-oid entry under (org, repo) grants it, while any
other oid `Y` with no entry under (org, repo) still falls back to the
wildcard-oid grant set when one exists. -/
theorem empty_grant_shadows_wildcard (t : PermissionTree)
    (org repo X : String) :
    (∀ p : Permission,
      (is_authorized (allow t (some org) (some repo) none (some X))
          org repo p (some X)).fst = false) ∧
    (∀ (Y : String) (p : Permission) (s : PermSet),
      coordSet (allow t (some org) (some repo) none (some X))
          (some org) (some repo) (some Y) = none →
      coordSet (allow t (some org) (some repo) none (some X))
          (some org) (some repo) none = some s →
      (is_authorized (allow t (some org) (some repo) none (some X))
          org repo p (some Y)).fst = s.contains p) := by
  constructor
  · intro p
    rw [is_authorized_fst_spec]
    have hc : coordSet (allow t (some org) (some repo) none (some X))
        (some org) (some repo) (some X) = some [] := by
      rw [coordSet_allow]
      simp
    rw [spec_of_coordSet_some _ _ _ _ [] p hc]
    rfl
  · intro Y p s h1 h2
    rw [is_authorized_fst_spec]
    exact spec_wildcard_fallback _ _ _ _ _ _ h1 h2

/-- C8 witness: with a wildcard-oid READ grant under (o, r), the
explicitly emptied oid x refuses READ while the unknown oid y still
falls back to the wildcard grant. -/
theorem empty_grant_shadows_wildcard_witness :
    (is_authorized
        (allow [(some "o", [(some "r", [(none, [Permission.READ])])])]
          (some "o") (some "r") none (some "x"))
        "o" "r" Permission.READ (some "x")).fst = false ∧
    (is_authorized
        (allow [(some "o", [(some "r", [(none, [Permission.READ])])])]
          (some "o") (some "r") none (some "x"))
        "o" "r" Permission.READ (some "y")).fst =
      [Permission.READ].contains Permission.READ :=
  ⟨(empty_grant_shadows_wildcard
      [(some "o", [(some "r", [(none, [Permission.READ])])])] "o" "r" "x").1
      Permission.READ,
   (empty_grant_shadows_wildcard
      [(some "o", [(some "r", [(none, [Permission.READ])])])] "o" "r" "x").2
      "y" Permission.READ [Permission.READ] (by decide) (by decide)⟩

/-- C4: `upload` returns, for a missing object or a stored-size
mismatch, a response with exactly the `upload` action (expiring after
the configured action lifetime, carrying a write-scoped
pre-authorization header for this oid) and the `verify` action
(expiring after the fixed verify lifetime, carrying a verify-scoped
pre-authorization header) and `authenticated = true`; and for a present
object of matching size, a response with neither an `actions` nor an
`authenticated` field. -/
theorem upload_response_shape (a : Adapter) (organization repo oid : String)
    (size : Nat) :
    upload a organization repo oid size =
      Except.ok
        (if storedSize a.storage (posixpathJoin organization repo) oid
            = some size then
          { oid := oid, size := size,
            actions := none, authenticated := none, error := none }
        else
          { oid := oid, size := size,
            actions := some
              { upload := some
                  { href := a.storage_url "put" organization repo (some oid),
                    header := a.preauth organization repo ["write"] oid none,
                    expires_in := a.action_lifetime },
                verify := some
                  { href := a.verify_url organization repo none,
                    header := a.preauth organization repo ["verify"] oid
                      (some a.verify_lifetime),
                    expires_in := a.verify_lifetime },
                download := none },
            authenticated := some true, error := none }) :=
  upload_unfold a organization repo oid size

/-- C5: when the object is absent or its stored size differs from the
requested size, `download` catches the storage-domain error raised by
the validation and reports it in the response's `error` field
(`ObjectNotFound` structured form for an absent object, `InvalidObject`
for a size mismatch) with neither `actions` nor `authenticated` set;
moreover no response of `download` ever carries both an `error` field
and an `actions` field. -/
theorem download_error_handling :
    (∀ (a : Adapter) (organization repo oid : String) (size : Nat)
        (extra : Option (List (String × String))),
      storedSize a.storage (posixpathJoin organization repo) oid
          ≠ some size →
      (download a organization repo oid size extra).actions = none ∧
      (download a organization repo oid size extra).authenticated = none ∧
      (download a organization repo oid size extra).error =
        some (match storedSize a.storage (posixpathJoin organization repo)
            oid with
          | none => StorageErr.objectNotFound.as_dict
          | some _ =>
              (StorageErr.invalidObject "Object size does not match").as_dict)) ∧
    (∀ (a : Adapter) (organization repo oid : String) (size : Nat)
        (extra : Option (List (String × String))),
      ¬((download a organization repo oid size extra).error ≠ none ∧
        (download a organization repo oid size extra).actions ≠ none)) := by
  constructor
  · intro a organization repo oid size extra h
    simp only [download_unfold]
    cases hss : storedSize a.storage (posixpathJoin organization repo) oid with
    | none => simp
    | some n =>
      have hn : n ≠ size := by
        intro e
        exact h (by rw [hss, e])
      simp [hn]
  · intro a organization repo oid size extra
    simp only [download_unfold]
    cases hss : storedSize a.storage (posixpathJoin organization repo) oid with
    | none => simp
    | some n =>
      by_cases hn : n = size
      · subst hn
        simp only [if_pos rfl]
        by_cases ht : downloadTruthy (a.get_download_action
            (posixpathJoin organization repo) oid n a.action_lifetime extra)
              = true <;>
          simp [ht]
      · simp [hn]

/-- C5 witness: requesting size 7 for the stored size-5 object yields
the in-band InvalidObject error and no actions. -/
theorem download_error_handling_witness :
    (download sampleAdapter "o" "r" "x" 7 none).actions = none ∧
    (download sampleAdapter "o" "r" "x" 7 none).authenticated = none ∧
    (download sampleAdapter "o" "r" "x" 7 none).error =
      some (match storedSize sampleAdapter.storage (posixpathJoin "o" "r")
          "x" with
        | none => StorageErr.objectNotFound.as_dict
        | some _ =>
            (StorageErr.invalidObject "Object size does not match").as_dict) :=
  download_error_handling.1 sampleAdapter "o" "r" "x" 7 none (by decide)

/-- C6: when the object exists with matching stored size, `download`
places the collaborator's ready-made fragment under `actions`, so
`actions.download` equals exactly the descriptor the storage
collaborator returned, and `authenticated = true` is set if and only if
that descriptor is non-empty (truthy). -/
theorem download_success_delegation (a : Adapter)
    (organization repo oid : String) (size : Nat)
    (extra : Option (List (String × String)))
    (h : storedSize a.storage (posixpathJoin organization repo) oid
        = some size) :
    (download a organization repo oid size extra).actions =
      some (a.get_download_action (posixpathJoin organization repo) oid size
        a.action_lifetime extra) ∧
    ((download a organization repo oid size extra).authenticated = some true
      ↔ downloadTruthy (a.get_download_action (posixpathJoin organization repo)
          oid size a.action_lifetime extra) = true) := by
  simp only [download_unfold, h]
  by_cases ht : downloadTruthy (a.get_download_action
      (posixpathJoin organization repo) oid size a.action_lifetime extra) <;>
    simp [ht]

/-- C6 witness: the matching-size download of the sample object carries
exactly the collaborator fragment and is authenticated (the sample
descriptor is non-empty). -/
theorem download_success_delegation_witness :
    (download sampleAdapter "o" "r" "x" 5 none).actions =
      some (sampleAdapter.get_download_action (posixpathJoin "o" "r") "x" 5
        sampleAdapter.action_lifetime none) ∧
    ((download sampleAdapter "o" "r" "x" 5 none).authenticated = some true
      ↔ downloadTruthy (sampleAdapter.get_download_action
          (posixpathJoin "o" "r") "x" 5 sampleAdapter.action_lifetime none)
        = true) :=
  download_success_delegation sampleAdapter "o" "r" "x" 5 none (by decide)

/-- C9: the verify entry point raises InvalidPayload exactly when the
storage collaborator's `verify_object` reports false, which happens
exactly when the object is absent or its stored size differs from the
claimed size; when `verify_object` reports true it returns an empty
200 response without raising. -/
theorem verify_payload_validation (s : Storage) (organization repo oid : String)
    (size : Nat) :
    (VerifyView.verify s organization repo oid size =
        Except.error (VerifyErr.invalidPayload
          "Object does not exist or size does not match") ↔
      verifyObject s (posixpathJoin organization repo) oid size = false) ∧
    (verifyObject s (posixpathJoin organization repo) oid size = false ↔
      storedSize s (posixpathJoin organization repo) oid ≠ some size) ∧
    (verifyObject s (posixpathJoin organization repo) oid size = true →
      VerifyView.verify s organization repo oid size =
        Except.ok { status := 200 }) := by
  unfold VerifyView.verify verifyObject
  by_cases h : storedSize s (posixpathJoin organization repo) oid = some size <;>
    simp [h]

/-- C9 witness: the stored size-5 object verifies successfully at
claimed size 5. -/
theorem verify_payload_validation_witness :
    VerifyView.verify [(("o/r", "x"), 5)] "o" "r" "x" 5 =
      Except.ok { status := 200 } :=
  (verify_payload_validation [(("o/r", "x"), 5)] "o" "r" "x" 5).2.2 (by decide)

/-- C10: `upload` is total — it never lets a storage error escape, for
any adapter state and input, because `get_size` is only consulted after
the `exists` check succeeded, making its `ObjectNotFound` failure
unreachable. -/
theorem upload_never_raises (a : Adapter) (organization repo oid : String)
    (size : Nat) :
    ∃ r, upload a organization repo oid size = Except.ok r :=
  ⟨_, upload_unfold a organization repo oid size⟩

end Giftless
